import Mathlib

/-!
Verification of the receipt-extraction pipeline of the business-cost-tracker
backend (src/backend/receipt_processor.py, crud_receipts.py, models.py,
routers/receipts.py).

Shallow embedding conventions:
- Python float currency amounts are modelled as rationals (Rat); the
  percent-tolerance comparisons of the claims are exact at the cited
  boundary inputs, where IEEE doubles also behave exactly.
- Python `None` becomes `Option.none`; Python truthiness of strings and
  numbers (the code branches on `if not x:` with `None`, `""` and `0.0`
  all falsy) is modelled by explicit `py*Truthy` helpers.
- Calendar dates travel as ISO `YYYY-MM-DD` strings, exactly as in the
  pydantic models of receipt_processor.py.
- The structured-completion service (the LangChain `chain.ainvoke` call)
  is an oracle `Nat → Except String ReceiptData` giving the outcome of
  each attempt; `datetime.now().strftime("%Y-%m-%d")` is a `now : String`
  parameter.
- Logging is not I/O here: functions that `logger.warning` return a Bool
  flag recording whether the warning fired.
-/

/-- Python substring test `needle in hay` (both already strings). -/
def strContainsSub (hay needle : String) : Bool :=
  (List.range (hay.data.length + 1)).any (fun i => needle.data.isPrefixOf (hay.data.drop i))

/-- Truthiness of an optional Python string: `None` and `""` are falsy. -/
def pyStrTruthy : Option String → Bool
  | none => false
  | some s => !(s == "")

/-- Truthiness of an optional Python number: `None` and `0.0` are falsy. -/
def pyRatTruthy : Option Rat → Bool
  | none => false
  | some q => decide (q ≠ 0)

/-- receipt_processor.py `Transaction` (pydantic model): one extracted line item. -/
structure Transaction where
  description : String
  amount : Rat
  date : Option String
  category : Option String
deriving Repr, DecidableEq

/-- receipt_processor.py `ReceiptData` (pydantic model): the structured parse result. -/
structure ReceiptData where
  merchant_name : Option String
  receipt_date : Option String
  receipt_total : Option Rat
  transactions : List Transaction
deriving Repr, DecidableEq

/-- `sum(t.amount for t in receipt_data.transactions)`. -/
def txSum (ts : List Transaction) : Rat :=
  (ts.map (fun t => t.amount)).sum

/-- The default hint table of `ReceiptProcessor._load_category_patterns`,
as an insertion-ordered association list (Python dicts preserve insertion order). -/
def default_category_patterns : List (String × List String) :=
  [("Food", ["restaurant", "café", "grocery", "meal", "lunch", "dinner", "breakfast"]),
   ("Travel", ["airline", "flight", "taxi", "uber", "lyft", "train", "bus", "rental car"]),
   ("Office Supplies", ["paper", "pen", "ink", "toner", "stapler", "office"]),
   ("Accommodation", ["hotel", "motel", "airbnb", "lodging", "inn"]),
   ("Utilities", ["electric", "water", "gas", "internet", "phone", "mobile"]),
   ("Entertainment", ["movie", "theatre", "concert", "show", "game"])]

/-- Python `str.lower()`, modelled character-wise (`String.toLower` maps
`Char.toLower` over the characters; the claims only involve ASCII text). -/
def strToLower (s : String) : String :=
  ⟨s.data.map Char.toLower⟩

/-- The lowered text `(description + " " + (merchant_name or "")).lower()`
scanned by `_suggest_category`. -/
def textToCheck (description : String) (merchant_name : Option String) : String :=
  strToLower (description ++ " " ++ merchant_name.getD "")

/-- Whether one category entry of the hint table has a keyword occurring in the text
(the inner `for pattern in patterns` loop of `_suggest_category`). -/
def categoryMatches (text : String) (entry : String × List String) : Bool :=
  entry.2.any (fun p => strContainsSub text (strToLower p))

/-- `ReceiptProcessor._suggest_category`: first category, in hint-table order,
with a keyword substring match against description plus merchant name; `None` otherwise. -/
def suggest_category (patterns : List (String × List String))
    (description : String) (merchant_name : Option String) : Option String :=
  (patterns.find? (categoryMatches (textToCheck description merchant_name))).map (fun e => e.1)

/-- `ReceiptProcessor._validate_receipt_total`. Returns the (possibly updated)
data and whether the discrepancy warning was logged. The Python guard is
`if not receipt_data.receipt_total:`, so a total of `0.0` takes the
estimate-from-transactions branch. -/
def validate_receipt_total (rd : ReceiptData) : ReceiptData × Bool :=
  if !(pyRatTruthy rd.receipt_total) then
    ({ rd with receipt_total := some (txSum rd.transactions) }, false)
  else
    let t := rd.receipt_total.getD 0
    (rd, decide (|txSum rd.transactions - t| > t * (1 / 100)))

/-- The date-backfill pass of `_enhance_results`: when the receipt date is truthy,
every transaction whose date is falsy or the literal string "null" gets the receipt date. -/
def backfillDates (rd : ReceiptData) : List Transaction :=
  if pyStrTruthy rd.receipt_date then
    rd.transactions.map (fun t =>
      if !(pyStrTruthy t.date) || t.date == some "null" then
        { t with date := rd.receipt_date }
      else t)
  else rd.transactions

/-- The categorization pass of `_enhance_results` applied to one transaction.
`if suggested_category:` is a Python truthiness guard: a falsy suggestion —
`None`, or an empty-string category name in the hint table — leaves the
category unchanged. -/
def categorizeTx (patterns : List (String × List String)) (merchant_name : Option String)
    (t : Transaction) : Transaction :=
  if !(pyStrTruthy t.category) || t.category == some "Miscellaneous" then
    let suggested := suggest_category patterns t.description merchant_name
    if pyStrTruthy suggested then { t with category := suggested }
    else t
  else t

/-- `ReceiptProcessor._enhance_results`: date backfill, then category suggestion,
then total reconciliation. Second component: whether the reconciliation warning fired. -/
def enhance_results (patterns : List (String × List String)) (rd : ReceiptData) :
    ReceiptData × Bool :=
  let ts1 := backfillDates rd
  let ts2 := ts1.map (categorizeTx patterns rd.merchant_name)
  validate_receipt_total { rd with transactions := ts2 }

/-- Python slice `str(e)[:50]`. -/
def truncate50 (e : String) : String :=
  ⟨e.data.take 50⟩

/-- The fallback ReceiptData built by `_parse_receipt_text` when every attempt failed:
merchant and total unset, receipt date = current date, one diagnostic transaction. -/
def fallbackDraft (e now : String) : ReceiptData :=
  { merchant_name := none
    receipt_date := some now
    receipt_total := none
    transactions := [{ description := "Receipt parsing failed: " ++ truncate50 e ++ "..."
                       amount := 0
                       date := some now
                       category := some "Miscellaneous" }] }

/-- Result of `_parse_receipt_text` together with its observable retry trace:
the returned data, how many attempts were made, and the `asyncio.sleep`
durations (seconds) performed between attempts. -/
structure ParseOutcome where
  data : ReceiptData
  attemptsUsed : Nat
  sleeps : List Nat
deriving Repr, DecidableEq

/-- `max_retries = 3` in `_parse_receipt_text`. -/
def max_retries : Nat := 3

/-- The `for attempt in range(max_retries)` loop of `_parse_receipt_text`.
`fuel` is the number of attempts still allowed (so `fuel = max_retries - attempt`);
on success the enhanced result is returned, on a non-final failure the loop
sleeps `2 ^ attempt` seconds and retries, and on the final failure the
fallback draft embedding the last error is returned. -/
def parseGo (patterns : List (String × List String)) (oracle : Nat → Except String ReceiptData)
    (now : String) : Nat → Nat → List Nat → ParseOutcome
  | 0, attempt, sleeps => ⟨fallbackDraft "" now, attempt, sleeps⟩
  | fuel + 1, attempt, sleeps =>
    match oracle attempt with
    | Except.ok r => ⟨(enhance_results patterns r).1, attempt + 1, sleeps⟩
    | Except.error e =>
      if fuel = 0 then ⟨fallbackDraft e now, attempt + 1, sleeps⟩
      else parseGo patterns oracle now fuel (attempt + 1) (sleeps ++ [2 ^ attempt])

/-- `ReceiptProcessor._parse_receipt_text`: run the retry loop from attempt 0.
Total function: no exception escapes on completion-service failure. -/
def parse_receipt_text (patterns : List (String × List String))
    (oracle : Nat → Except String ReceiptData) (now : String) : ParseOutcome :=
  parseGo patterns oracle now max_retries 0 []

/-- models.py `Receipt` row (the Document Job). Timestamp columns
(`created_at`, `processing_time`) and the feedback JSON are not touched by
any embedded operation and are omitted. -/
structure ReceiptRec where
  id : Nat
  user_id : Nat
  filename : String
  file_path : String
  merchant_name : Option String
  receipt_date : Option String
  receipt_total : Option Rat
  processed : Bool
  verified : Bool
  status : String
  error_message : Option String
  progress : Rat
deriving Repr, DecidableEq

/-- models.py `ExtractedTransaction` row (the Persisted Transaction).
The correction-history JSON is not read by any embedded operation and is omitted. -/
structure ExtractedTxn where
  id : Nat
  receipt_id : Nat
  description : String
  amount : Rat
  date : Option String
  category : Option String
  verified : Bool
  added_to_expenses : Bool
  expense_id : Option Nat
  user_verified : Bool
  confidence_score : Rat
  original_text : Option String
deriving Repr, DecidableEq

/-- models.py `Expense` row (the Ledger Expense), fields used by the receipts flow. -/
structure ExpenseRec where
  id : Nat
  amount : Rat
  description : String
  date : Option String
  category : Option String
  attachment_filename : Option String
  attachment_path : Option String
  user_id : Nat
deriving Repr, DecidableEq

/-- The relational state the receipts flow reads and writes, with autoincrement
counters for the primary keys handed out on insert. -/
structure DB where
  receipts : List ReceiptRec
  transactions : List ExtractedTxn
  expenses : List ExpenseRec
  nextTxnId : Nat
  nextExpenseId : Nat
deriving Repr, DecidableEq

/-- `ReceiptProcessor._update_receipt_status` (receipt_processor.py): set the
status on the row with the given id, and set `error_message` only when the
passed message is truthy (`if error_message:`). No progress update exists here. -/
def update_receipt_status_proc (db : DB) (receipt_id : Nat) (status : String)
    (error_message : Option String) : DB :=
  match db.receipts.find? (fun r => r.id == receipt_id) with
  | none => db
  | some _ =>
    { db with receipts := db.receipts.map (fun (r : ReceiptRec) =>
        if r.id == receipt_id then
          { r with status := status
                   error_message := if pyStrTruthy error_message then error_message
                                    else r.error_message }
        else r) }

/-- crud_receipts.py `update_receipt_status`: sets status unconditionally,
progress and error_message only when passed (`if progress is not None:`),
and marks `processed` on "completed". (No caller in src/ passes `progress`.) -/
def crud_update_receipt_status (db : DB) (receipt_id : Nat) (status : String)
    (progress : Option Rat) (error_message : Option String) : DB :=
  match db.receipts.find? (fun r => r.id == receipt_id) with
  | none => db
  | some _ =>
    { db with receipts := db.receipts.map (fun (r : ReceiptRec) =>
        if r.id == receipt_id then
          let r1 := { r with status := status }
          let r2 := match progress with
                    | some p => { r1 with progress := p }
                    | none => r1
          let r3 := match error_message with
                    | some m => { r2 with error_message := some m }
                    | none => r2
          if status == "completed" then { r3 with processed := true } else r3
        else r) }

/-- `ReceiptProcessor._update_receipt_with_data`: copy truthy extracted fields
onto the Receipt row, mark it processed, then insert one ExtractedTransaction
per draft transaction (flags at their column defaults, `date` stored only when
truthy). Date strings are stored as given (strptime of a well-formed
`YYYY-MM-DD` string is the identity at this granularity). -/
def update_receipt_with_data (db : DB) (receipt_id : Nat) (rd : ReceiptData) : DB :=
  match db.receipts.find? (fun r => r.id == receipt_id) with
  | none => db
  | some _ =>
    let db1 := { db with receipts := db.receipts.map (fun (r : ReceiptRec) =>
        if r.id == receipt_id then
          let r1 := if pyStrTruthy rd.merchant_name then
                      { r with merchant_name := rd.merchant_name } else r
          let r2 := if pyStrTruthy rd.receipt_date then
                      { r1 with receipt_date := rd.receipt_date } else r1
          let r3 := if pyRatTruthy rd.receipt_total then
                      { r2 with receipt_total := rd.receipt_total } else r2
          { r3 with processed := true }
        else r) }
    let newRows := (List.range rd.transactions.length).zip rd.transactions |>.map
      (fun p => { id := db1.nextTxnId + p.1
                  receipt_id := receipt_id
                  description := p.2.description
                  amount := p.2.amount
                  date := if pyStrTruthy p.2.date then p.2.date else none
                  category := p.2.category
                  verified := false
                  added_to_expenses := false
                  expense_id := none
                  user_verified := false
                  confidence_score := 1
                  original_text := none : ExtractedTxn })
    { db1 with transactions := db1.transactions ++ newRows
               nextTxnId := db1.nextTxnId + rd.transactions.length }

/-- `ReceiptProcessor._background_process_receipt`, database effect: on a
successful pipeline outcome persist the draft and set status "completed";
on a raised error set status "error" with the error text as message. -/
def background_process_receipt (db : DB) (receipt_id : Nat)
    (outcome : Except String ReceiptData) : DB :=
  match outcome with
  | Except.ok rd =>
    update_receipt_status_proc (update_receipt_with_data db receipt_id rd)
      receipt_id "completed" none
  | Except.error e =>
    update_receipt_status_proc db receipt_id "error" (some e)

/-- The status vocabulary documented at models.py line 62
(`# pending, processing, completed, failed`) and in the spec. -/
def allowedStatuses : List String := ["pending", "processing", "completed", "failed"]

/-- schemas.py `FeedbackModel` as it reaches the processor: the endpoint passes
`feedback.feedback.dict()` (routers/receipts.py line 295), and pydantic
`.dict()` includes every declared field, so all five keys are always present
in the dict and each `if "correct_x" in feedback:` guard in the processor is
true. `none` here is the value `None` of an unsubmitted field. `correct_date`
is declared `Optional[date]` (schemas.py line 53): pydantic has already parsed
any submitted string, so its dict value is a `datetime.date` object (modelled
by its ISO rendering) or `None` — never a `str`. -/
structure FeedbackModel where
  correct_description : Option String
  correct_amount : Option Rat
  correct_date : Option String
  correct_category : Option String
  notes : Option String
deriving Repr, DecidableEq

/-- `datetime.strptime(feedback["correct_date"], "%Y-%m-%d")` as invoked at
receipt_processor.py line 369 on the endpoint dict: `strptime` requires a
`str` as first argument, and the dict value there is a `datetime.date` or
`None` (see `FeedbackModel`), so the call raises TypeError on every endpoint
submission. -/
def strptime_feedback_date : Option String → Except String String
  | none => Except.error "TypeError: strptime() argument 1 must be str, not NoneType"
  | some _ => Except.error "TypeError: strptime() argument 1 must be str, not datetime.date"

/-- The `try` body of `ReceiptProcessor._update_transaction_with_feedback`
(receipt_processor.py lines 363-376) on the found row: assign the pending
correction values in source order, then `user_verified = True`, then commit
(`Except.ok`); any raise propagates to the `except` handler (`Except.error`).
The description/amount assignments never outlive the rollback that the
`strptime` raise forces, so a `None` dict value (which Python would assign as
NULL to the pending row) is modelled as leaving the model field in place. -/
def tryApplyFeedback (fb : FeedbackModel) (t : ExtractedTxn) : Except String ExtractedTxn :=
  let t1 := match fb.correct_description with
            | some d => { t with description := d }
            | none => t
  let t2 := match fb.correct_amount with
            | some a => { t1 with amount := a }
            | none => t1
  match strptime_feedback_date fb.correct_date with
  | Except.error e => Except.error e
  | Except.ok d =>
    let t3 := { t2 with date := some d }
    let t4 := { t3 with category := fb.correct_category }
    Except.ok { t4 with user_verified := true }

/-- `ReceiptProcessor._update_transaction_with_feedback`, the path the
transaction-feedback endpoint reaches through `record_user_feedback`: look the
transaction up by id (a missing transaction only logs and changes nothing);
run the try body and commit the updated row on success; on any raise the
`except` handler at line 378 logs and calls `db.rollback()`, discarding every
pending change — the database is returned unchanged. -/
def update_transaction_with_feedback_proc (db : DB) (transaction_id : Nat)
    (fb : FeedbackModel) : DB :=
  match db.transactions.find? (fun t => t.id == transaction_id) with
  | none => db
  | some tx =>
    match tryApplyFeedback fb tx with
    | Except.ok updated =>
      { db with transactions := db.transactions.map (fun t =>
          if t.id == transaction_id then updated else t) }
    | Except.error _ => db

/-- crud_receipts.py `add_transaction_to_expenses`: refuse (return `none`) when
the transaction is missing or already added, or when the owning receipt does
not belong to the user; otherwise insert one Expense built from the
transaction and the receipt, then mark the transaction as added and link it. -/
def add_transaction_to_expenses (db : DB) (transaction_id user_id : Nat) :
    Option ExpenseRec × DB :=
  match db.transactions.find? (fun t => t.id == transaction_id) with
  | none => (none, db)
  | some tx =>
    if tx.added_to_expenses then (none, db)
    else
      match db.receipts.find? (fun r => r.id == tx.receipt_id && r.user_id == user_id) with
      | none => (none, db)
      | some rcpt =>
        let e : ExpenseRec :=
          { id := db.nextExpenseId
            amount := tx.amount
            description := tx.description
            date := tx.date
            category := tx.category
            attachment_filename := some rcpt.filename
            attachment_path := some rcpt.file_path
            user_id := user_id }
        (some e,
         { db with
             expenses := db.expenses ++ [e]
             nextExpenseId := db.nextExpenseId + 1
             transactions := db.transactions.map (fun t =>
               if t.id == transaction_id then
                 { t with added_to_expenses := true, expense_id := some e.id }
               else t) })

/-- crud_receipts.py `delete_receipt`: when a receipt with this id belongs to
this user, delete every ExtractedTransaction referencing the receipt id, then
the receipt itself, and return True; otherwise return False and change nothing.
(The `os.remove` of the stored file is outside the relational model.) -/
def delete_receipt_fn (db : DB) (receipt_id user_id : Nat) : Bool × DB :=
  match db.receipts.find? (fun r => r.id == receipt_id && r.user_id == user_id) with
  | none => (false, db)
  | some _ =>
    (true,
     { db with
         transactions := db.transactions.filter (fun t => !(t.receipt_id == receipt_id))
         receipts := db.receipts.eraseP (fun r => r.id == receipt_id && r.user_id == user_id) })

/-- The mutable environment `_enhance_results` executes in: the processor's
hint table plus the module-level stores `processing_history` and
`user_feedback_store` of receipt_processor.py. -/
structure ProcessorState where
  category_patterns : List (String × List String)
  processing_history : List (String × ReceiptData)
  user_feedback_store : List (String × FeedbackModel)

/-- `_enhance_results` as executed on a processor state: it reads only
`self.category_patterns` and writes no state. -/
def enhance_results_in (s : ProcessorState) (rd : ReceiptData) : ReceiptData × Bool :=
  enhance_results s.category_patterns rd

/-- A Document Job mid-processing, as created by the async upload endpoint
(status "processing", progress 0.0). -/
def dbJob : DB :=
  { receipts := [{ id := 7, user_id := 1, filename := "r.pdf", file_path := "up/r.pdf",
                   merchant_name := none, receipt_date := none, receipt_total := none,
                   processed := false, verified := false, status := "processing",
                   error_message := none, progress := 0 }],
    transactions := [], expenses := [], nextTxnId := 1, nextExpenseId := 1 }

/-- A successful one-item draft used to exercise the completion path. -/
def rdOk : ReceiptData :=
  { merchant_name := some "Cafe Aroma", receipt_date := some "2024-05-01",
    receipt_total := some 10,
    transactions := [{ description := "coffee", amount := 10,
                       date := some "2024-05-01", category := some "Food" }] }

/-- A persisted transaction awaiting feedback (both verification flags false). -/
def txFb : ExtractedTxn :=
  { id := 3, receipt_id := 7, description := "Uber ride home", amount := 25,
    date := some "2024-05-01", category := some "Miscellaneous", verified := false,
    added_to_expenses := false, expense_id := none, user_verified := false,
    confidence_score := 1, original_text := none }

/-- Database holding only `txFb`, for the feedback claims. -/
def dbFb : DB :=
  { receipts := [], transactions := [txFb], expenses := [], nextTxnId := 4, nextExpenseId := 1 }

/-- A category-only feedback submission. -/
def fbTravel : FeedbackModel :=
  { correct_description := none, correct_amount := none, correct_date := none,
    correct_category := some "Travel", notes := none }

/-- The owned receipt row for the add-to-expenses claims. -/
def rcptExp : ReceiptRec :=
  { id := 7, user_id := 1, filename := "r.pdf", file_path := "up/r.pdf",
    merchant_name := some "Uber", receipt_date := some "2024-05-01",
    receipt_total := some 25, processed := true, verified := false,
    status := "completed", error_message := none, progress := 0 }

/-- The not-yet-added transaction row for the add-to-expenses claims. -/
def txExp : ExtractedTxn :=
  { id := 3, receipt_id := 7, description := "Uber ride home", amount := 25,
    date := some "2024-05-01", category := some "Travel", verified := false,
    added_to_expenses := false, expense_id := none, user_verified := false,
    confidence_score := 1, original_text := none }

/-- Database with one owned receipt and one not-yet-added transaction, for the
add-to-expenses claims. -/
def dbExp : DB :=
  { receipts := [rcptExp], transactions := [txExp], expenses := [],
    nextTxnId := 4, nextExpenseId := 10 }

/-- The ledger expense `add_transaction_to_expenses` builds from `dbExp`. -/
def expExp : ExpenseRec :=
  { id := 10, amount := 25, description := "Uber ride home", date := some "2024-05-01",
    category := some "Travel", attachment_filename := some "r.pdf",
    attachment_path := some "up/r.pdf", user_id := 1 }

/-- `dbExp` after the successful add: one expense, transaction marked and linked. -/
def dbExp1 : DB :=
  { receipts := dbExp.receipts,
    transactions := [{ id := 3, receipt_id := 7, description := "Uber ride home", amount := 25,
                       date := some "2024-05-01", category := some "Travel", verified := false,
                       added_to_expenses := true, expense_id := some 10, user_verified := false,
                       confidence_score := 1, original_text := none }],
    expenses := [expExp], nextTxnId := 4, nextExpenseId := 11 }

/-- Database with one owned receipt and transactions of two receipts, for the
delete claim. -/
def dbDel : DB :=
  { receipts := [{ id := 7, user_id := 1, filename := "r.pdf", file_path := "up/r.pdf",
                   merchant_name := none, receipt_date := none, receipt_total := none,
                   processed := true, verified := false, status := "completed",
                   error_message := none, progress := 0 }],
    transactions := [{ id := 3, receipt_id := 7, description := "coffee", amount := 10,
                       date := none, category := some "Food", verified := false,
                       added_to_expenses := false, expense_id := none, user_verified := false,
                       confidence_score := 1, original_text := none },
                     { id := 4, receipt_id := 8, description := "paper", amount := 6,
                       date := none, category := some "Office Supplies", verified := false,
                       added_to_expenses := false, expense_id := none, user_verified := false,
                       confidence_score := 1, original_text := none }],
    expenses := [], nextTxnId := 5, nextExpenseId := 1 }

/-- Processor state with empty learning stores. -/
def stateA : ProcessorState :=
  { category_patterns := default_category_patterns, processing_history := [],
    user_feedback_store := [] }

/-- Processor state with the same hint table but non-empty learning stores. -/
def stateB : ProcessorState :=
  { category_patterns := default_category_patterns,
    processing_history := [("1_7", rdOk)], user_feedback_store := [("1_7_3", fbTravel)] }


/-- Default transaction used only as the out-of-range value of `List.getD`. -/
def dummyTx : Transaction :=
  { description := "", amount := 0, date := none, category := none }

/-- A one-item draft with no category, for the categorization claim. -/
def rdCat : ReceiptData :=
  { merchant_name := none, receipt_date := none, receipt_total := some 30,
    transactions := [{ description := "Dinner at a restaurant", amount := 30,
                       date := some "2024-05-01", category := none }] }

lemma validate_receipt_total_transactions (rd : ReceiptData) :
    (validate_receipt_total rd).1.transactions = rd.transactions := by
  unfold validate_receipt_total
  split <;> rfl

lemma parse_receipt_text_eq (patterns : List (String × List String))
    (oracle : Nat → Except String ReceiptData) (now : String) :
    parse_receipt_text patterns oracle now =
      match oracle 0 with
      | Except.ok r => ⟨(enhance_results patterns r).1, 1, []⟩
      | Except.error _ =>
        match oracle 1 with
        | Except.ok r => ⟨(enhance_results patterns r).1, 2, [1]⟩
        | Except.error _ =>
          match oracle 2 with
          | Except.ok r => ⟨(enhance_results patterns r).1, 3, [1, 2]⟩
          | Except.error e => ⟨fallbackDraft e now, 3, [1, 2]⟩ := by
  unfold parse_receipt_text max_retries
  rcases h0 : oracle 0 with e0 | r0
  · rcases h1 : oracle 1 with e1 | r1
    · rcases h2 : oracle 2 with e2 | r2
      · simp [parseGo, h0, h1, h2]
      · simp [parseGo, h0, h1, h2]
    · simp [parseGo, h0, h1]
  · simp [parseGo, h0]

lemma parseGo_attempts_le (patterns : List (String × List String))
    (oracle : Nat → Except String ReceiptData) (now : String) :
    ∀ (fuel attempt : Nat) (sleeps : List Nat),
      (parseGo patterns oracle now fuel attempt sleeps).attemptsUsed ≤ attempt + fuel := by
  intro fuel
  induction fuel with
  | zero => intro a s; simp [parseGo]
  | succ f ih =>
    intro a s
    cases h : oracle a with
    | ok r => simp [parseGo, h]
    | error e =>
      by_cases hf : f = 0
      · subst hf; simp [parseGo, h]
      · simp only [parseGo, h]
        rw [if_neg hf]
        have := ih (a + 1) (s ++ [2 ^ a])
        omega

/-- Claim C1, counterexample: when the completion service succeeds on the first
attempt with a schema-valid draft whose transaction list is empty,
`_parse_receipt_text` returns that empty transaction list — so the claim that
parse never returns a ReceiptData with an empty transaction list is false. -/
theorem parse_empty_transactions_counterexample :
    (parse_receipt_text default_category_patterns
      (fun _ => Except.ok ⟨none, none, some 10, []⟩) "2024-05-01").data.transactions = [] := by
  rw [parse_receipt_text_eq]
  rfl

/-- Claim C1 (amended): `_parse_receipt_text` never raises on completion-service
failure; when all three attempts fail it returns the fallback draft built from
the last error — merchant and total unset, receipt date = current date, and
exactly one diagnostic transaction whose description embeds the error message
truncated to 50 characters, with amount 0.0 and category "Miscellaneous" —
which in particular is non-empty. (On a successful attempt it returns the
enhanced service result, whose transaction list may be empty if the service
produced an empty one.) -/
theorem parse_fallback_on_exhaustion (patterns : List (String × List String))
    (oracle : Nat → Except String ReceiptData) (now : String) (e0 e1 e2 : String)
    (h0 : oracle 0 = Except.error e0) (h1 : oracle 1 = Except.error e1)
    (h2 : oracle 2 = Except.error e2) :
    (parse_receipt_text patterns oracle now).data = fallbackDraft e2 now ∧
    (parse_receipt_text patterns oracle now).data.merchant_name = none ∧
    (parse_receipt_text patterns oracle now).data.receipt_total = none ∧
    (parse_receipt_text patterns oracle now).data.receipt_date = some now ∧
    (parse_receipt_text patterns oracle now).data.transactions =
      [{ description := "Receipt parsing failed: " ++ truncate50 e2 ++ "..."
         amount := 0
         date := some now
         category := some "Miscellaneous" }] ∧
    (parse_receipt_text patterns oracle now).data.transactions ≠ [] := by
  rw [parse_receipt_text_eq, h0, h1, h2]
  exact ⟨rfl, rfl, rfl, rfl, rfl, by simp [fallbackDraft]⟩

/-- Witness for C1: a concrete always-failing completion service yields the
fallback draft with its single diagnostic transaction. -/
theorem parse_fallback_on_exhaustion_witness :
    (parse_receipt_text default_category_patterns
        (fun _ => Except.error "service unavailable") "2024-05-01").data =
      fallbackDraft "service unavailable" "2024-05-01" ∧
    (parse_receipt_text default_category_patterns
        (fun _ => Except.error "service unavailable") "2024-05-01").data.transactions ≠ [] := by
  have h := parse_fallback_on_exhaustion default_category_patterns
    (fun _ => Except.error "service unavailable") "2024-05-01"
    "service unavailable" "service unavailable" "service unavailable" rfl rfl rfl
  exact ⟨h.1, h.2.2.2.2.2⟩

/-- Claim C2, counterexample: a receipt_total that is present but equal to 0.0
is falsy in Python, so `_validate_receipt_total` overwrites it with the sum of
the transaction amounts — the claim that a present receipt_total is never
mutated is false. -/
theorem validate_total_mutates_zero_counterexample :
    ((validate_receipt_total
        { merchant_name := none, receipt_date := none, receipt_total := some 0,
          transactions := [{ description := "item", amount := 5, date := none,
                             category := none }] }).1.receipt_total = some 5) ∧
    some (0 : Rat) ≠ some (5 : Rat) := by
  constructor
  · norm_num [validate_receipt_total, pyRatTruthy, txSum]
  · norm_num

/-- Claim C2 (amended): if receipt_total is absent or zero (Python-falsy), it is
set to the sum of the transaction amounts with no warning; if present and
nonzero, neither receipt_total nor any transaction amount is mutated (the data
is returned unchanged) and the warning fires exactly when the absolute
difference between the transaction sum and the total strictly exceeds 1% of
the total. At total 100.00, a transaction sum of 101.00 does not warn and
101.01 does. -/
theorem validate_receipt_total_spec (rd : ReceiptData) :
    (pyRatTruthy rd.receipt_total = false →
      validate_receipt_total rd =
        ({ rd with receipt_total := some (txSum rd.transactions) }, false)) ∧
    (∀ t : Rat, rd.receipt_total = some t → t ≠ 0 →
      (validate_receipt_total rd).1 = rd ∧
      ((validate_receipt_total rd).2 = true ↔
        |txSum rd.transactions - t| > t * (1 / 100))) ∧
    (validate_receipt_total
        { merchant_name := none, receipt_date := none, receipt_total := some 100,
          transactions := [{ description := "a", amount := 101, date := none,
                             category := none }] }).2 = false ∧
    (validate_receipt_total
        { merchant_name := none, receipt_date := none, receipt_total := some 100,
          transactions := [{ description := "a", amount := 101 + 1 / 100, date := none,
                             category := none }] }).2 = true := by
  refine ⟨?_, ?_, ?_, ?_⟩
  · intro h
    simp [validate_receipt_total, h]
  · intro t ht hne
    have h' : pyRatTruthy (some t) = true := by
      simp [pyRatTruthy, hne]
    constructor
    · simp [validate_receipt_total, ht, h']
    · simp [validate_receipt_total, ht, h']
  · have h1 : pyRatTruthy (some (100 : Rat)) = true := by norm_num [pyRatTruthy]
    have h2 : |(101 : Rat) - 100| = 1 := by
      rw [show (101 : Rat) - 100 = 1 by norm_num]
      exact abs_one
    simp [validate_receipt_total, h1, txSum, h2]
  · have h1 : pyRatTruthy (some (100 : Rat)) = true := by norm_num [pyRatTruthy]
    simp [validate_receipt_total, h1, txSum]
    rw [show (101 : Rat) + 100⁻¹ - 100 = 1 + 100⁻¹ by norm_num,
        abs_of_nonneg (by norm_num : (0 : Rat) ≤ 1 + 100⁻¹)]
    norm_num

/-- Witness for C2: a present total of 200 against a single 100 transaction is
not mutated and warns; an absent total is backfilled with the sum. -/
theorem validate_receipt_total_spec_witness :
    ((validate_receipt_total
        { merchant_name := none, receipt_date := none, receipt_total := some 200,
          transactions := [{ description := "a", amount := 100, date := none,
                             category := none }] }).1 =
      { merchant_name := none, receipt_date := none, receipt_total := some 200,
        transactions := [{ description := "a", amount := 100, date := none,
                           category := none }] }) ∧
    ((validate_receipt_total
        { merchant_name := none, receipt_date := none, receipt_total := some 200,
          transactions := [{ description := "a", amount := 100, date := none,
                             category := none }] }).2 = true) ∧
    (validate_receipt_total
        { merchant_name := none, receipt_date := none, receipt_total := none,
          transactions := [{ description := "a", amount := 100, date := none,
                             category := none }] } =
      ({ merchant_name := none, receipt_date := none, receipt_total := some 100,
         transactions := [{ description := "a", amount := 100, date := none,
                            category := none }] }, false)) := by
  have h1 := (validate_receipt_total_spec
    { merchant_name := none, receipt_date := none, receipt_total := some 200,
      transactions := [{ description := "a", amount := 100, date := none,
                         category := none }] }).2.1 200 rfl (by norm_num)
  have h2 := (validate_receipt_total_spec
    { merchant_name := none, receipt_date := none, receipt_total := none,
      transactions := [{ description := "a", amount := 100, date := none,
                         category := none }] }).1 (by norm_num [pyRatTruthy])
  have habs : |txSum [{ description := "a", amount := 100, date := none,
                        category := none : Transaction }] - 200| > 200 * (1 / 100) := by
    have : txSum [{ description := "a", amount := 100, date := none,
                    category := none : Transaction }] = 100 := by
      norm_num [txSum]
    rw [this, show (100 : Rat) - 200 = -100 by norm_num, abs_neg,
        abs_of_nonneg (by norm_num : (0 : Rat) ≤ 100)]
    norm_num
  refine ⟨h1.1, h1.2.mpr habs, ?_⟩
  rw [h2]
  simp [txSum]

/-- Claim C5: the retry loop of `_parse_receipt_text` makes at most 3 attempts
against the completion service, and on a service that fails twice then succeeds
it sleeps 1s then 2s and returns the enhanced third-attempt result rather than
the fallback draft. -/
theorem parse_retry_policy (patterns : List (String × List String))
    (oracle : Nat → Except String ReceiptData) (now : String) :
    (parse_receipt_text patterns oracle now).attemptsUsed ≤ 3 ∧
    (∀ e0 e1 r, oracle 0 = Except.error e0 → oracle 1 = Except.error e1 →
      oracle 2 = Except.ok r →
      parse_receipt_text patterns oracle now =
        ⟨(enhance_results patterns r).1, 3, [1, 2]⟩) := by
  constructor
  · have h := parseGo_attempts_le patterns oracle now 3 0 []
    simpa [parse_receipt_text, max_retries] using h
  · intro e0 e1 r h0 h1 h2
    rw [parse_receipt_text_eq, h0, h1, h2]

/-- Witness for C5: a concrete stub failing twice then succeeding yields the
enhanced third result after sleeping 1s and 2s. -/
theorem parse_retry_policy_witness :
    (parse_receipt_text default_category_patterns
        (fun n => if n = 0 then Except.error "timeout"
                  else if n = 1 then Except.error "rate limited"
                  else Except.ok { merchant_name := some "Cafe", receipt_date := none,
                                   receipt_total := some 10,
                                   transactions := [{ description := "coffee", amount := 10,
                                                      date := none, category := none }] })
        "2024-05-01").attemptsUsed ≤ 3 ∧
    parse_receipt_text default_category_patterns
        (fun n => if n = 0 then Except.error "timeout"
                  else if n = 1 then Except.error "rate limited"
                  else Except.ok { merchant_name := some "Cafe", receipt_date := none,
                                   receipt_total := some 10,
                                   transactions := [{ description := "coffee", amount := 10,
                                                      date := none, category := none }] })
        "2024-05-01" =
      ⟨(enhance_results default_category_patterns
          { merchant_name := some "Cafe", receipt_date := none, receipt_total := some 10,
            transactions := [{ description := "coffee", amount := 10,
                               date := none, category := none }] }).1, 3, [1, 2]⟩ := by
  have h := parse_retry_policy default_category_patterns
    (fun n => if n = 0 then Except.error "timeout"
              else if n = 1 then Except.error "rate limited"
              else Except.ok { merchant_name := some "Cafe", receipt_date := none,
                               receipt_total := some 10,
                               transactions := [{ description := "coffee", amount := 10,
                                                  date := none, category := none }] })
    "2024-05-01"
  exact ⟨h.1, h.2 "timeout" "rate limited" _ rfl rfl rfl⟩

/-- Claim C3, code evaluation at the failing input: when the background pipeline
raises, `_background_process_receipt` records status "error" — a value outside
the documented vocabulary pending/processing/completed/failed (models.py line 62),
where the claim and the model comment say "failed". -/
theorem background_failure_sets_error_status :
    ((background_process_receipt dbJob 7 (Except.error "boom")).receipts.map
        ReceiptRec.status = ["error"]) ∧
    allowedStatuses.contains "error" = false := by
  exact ⟨rfl, rfl⟩

/-- Claim C4, code evaluation at the failing input: a successful background run
sets status "completed" but leaves progress at 0.0 (the completion path never
writes progress, and `crud_update_receipt_status` — which has no caller passing
progress — also leaves it untouched when the argument is absent), violating
the invariant completed ⇒ progress == 1.0. The persisted-transaction half does
hold on this input: one row is inserted for the draft transaction. -/
theorem background_completed_leaves_progress_zero :
    ((background_process_receipt dbJob 7 (Except.ok rdOk)).receipts.map
        ReceiptRec.status = ["completed"]) ∧
    ((background_process_receipt dbJob 7 (Except.ok rdOk)).receipts.map
        ReceiptRec.progress = [0]) ∧
    (0 : Rat) ≠ 1 ∧
    ((background_process_receipt dbJob 7 (Except.ok rdOk)).transactions.map
        ExtractedTxn.receipt_id = [7]) ∧
    ((crud_update_receipt_status dbJob 7 "completed" none none).receipts.map
        ReceiptRec.progress = [0]) := by
  refine ⟨rfl, rfl, by norm_num, rfl, rfl⟩

/-- Claim C6, code evaluation at the failing input: on the path the
transaction-feedback endpoint invokes (`record_user_feedback` →
`_update_transaction_with_feedback`), no feedback submission persists
anything. The endpoint dict always carries the `correct_date` key with a
`datetime.date` or `None` value — never a `str` — so `strptime` raises
TypeError inside the try block on every submission and the except handler
rolls the session back: neither `verified` nor `user_verified` is ever set
(and even absent that raise, this helper writes only `user_verified`; the
crud helper that sets both flags has no caller). The first conjunct shows the
call is a database no-op for every input on this path; the second evaluates
the flags at the concrete failing input. -/
theorem feedback_endpoint_persists_nothing (db : DB) (tid : Nat) (fb : FeedbackModel) :
    update_transaction_with_feedback_proc db tid fb = db ∧
    (update_transaction_with_feedback_proc dbFb 3 fbTravel).transactions.map
      (fun t => (t.verified, t.user_verified)) = [(false, false)] := by
  have herr : ∀ t : ExtractedTxn, ∃ e, tryApplyFeedback fb t = Except.error e := by
    intro t
    cases hd : fb.correct_date with
    | none =>
      refine ⟨"TypeError: strptime() argument 1 must be str, not NoneType", ?_⟩
      unfold tryApplyFeedback
      rw [hd]
      rfl
    | some d =>
      refine ⟨"TypeError: strptime() argument 1 must be str, not datetime.date", ?_⟩
      unfold tryApplyFeedback
      rw [hd]
      rfl
  constructor
  · unfold update_transaction_with_feedback_proc
    cases hfind : db.transactions.find? (fun t => t.id == tid) with
    | none => rfl
    | some tx =>
      obtain ⟨e, he⟩ := herr tx
      simp [he]
  · rfl

/-- Claim C8: the Enhancement Stage is a deterministic function of the receipt
draft and the hint table alone — two runs in processor states agreeing on
`category_patterns` (but possibly differing in the mutable
`processing_history` and `user_feedback_store`) on equal drafts give equal
results; the embedding is a pure function, with the reconciliation log
captured as a returned flag rather than I/O. -/
theorem enhance_results_pure (s₁ s₂ : ProcessorState) (rd₁ rd₂ : ReceiptData)
    (hp : s₁.category_patterns = s₂.category_patterns) (hr : rd₁ = rd₂) :
    enhance_results_in s₁ rd₁ = enhance_results_in s₂ rd₂ := by
  simp [enhance_results_in, hp, hr]

/-- Witness for C8: states with empty and non-empty learning stores give the
same enhanced output on the same draft. -/
theorem enhance_results_pure_witness :
    enhance_results_in stateA rdOk = enhance_results_in stateB rdOk :=
  enhance_results_pure stateA stateB rdOk rdOk rfl rfl

lemma find?_map_guarded {α : Type _} (p : α → Bool) (h : α → α)
    (hp : ∀ a, p a = true → p (h a) = true) (l : List α) :
    (l.map (fun a => if p a then h a else a)).find? p =
      (l.find? p).map (fun a => if p a then h a else a) := by
  induction l with
  | nil => rfl
  | cons b l ih =>
    by_cases hb : p b
    · rw [List.map_cons, if_pos hb, List.find?_cons_of_pos _ (hp b hb),
          List.find?_cons_of_pos _ hb]
      simp [hb]
    · rw [List.map_cons, if_neg hb, List.find?_cons_of_neg _ (by simp [hb]),
          List.find?_cons_of_neg _ (by simp [hb]), ih]

lemma find?_marked (tid : Nat) (eid : Option Nat) (l : List ExtractedTxn)
    (tx : ExtractedTxn) (hf : l.find? (fun t => t.id == tid) = some tx) :
    (l.map (fun t => if t.id == tid then
        { t with added_to_expenses := true, expense_id := eid } else t)).find?
      (fun t => t.id == tid) =
      some { tx with added_to_expenses := true, expense_id := eid } := by
  rw [find?_map_guarded (fun t : ExtractedTxn => t.id == tid)
        (fun t => { t with added_to_expenses := true, expense_id := eid })
        (fun a ha => ha) l, hf, Option.map_some', if_pos (List.find?_some hf)]

/-- Claim C9: when a transaction exists, is not yet added, and its receipt is
owned by the caller, `add_transaction_to_expenses` succeeds, appending exactly
one new Expense built from the transaction; a second call on the same id is
then refused (returns `None`, surfaced by the router as an HTTP error) and
changes nothing, and every row with that transaction id carries
`added_to_expenses = true` with `expense_id` linking to that one Expense. -/
theorem add_to_expenses_once (db : DB) (tid uid : Nat) (tx : ExtractedTxn)
    (rcpt : ReceiptRec)
    (hf : db.transactions.find? (fun t => t.id == tid) = some tx)
    (ha : tx.added_to_expenses = false)
    (hr : db.receipts.find? (fun r => r.id == tx.receipt_id && r.user_id == uid)
            = some rcpt) :
    ∃ e db1, add_transaction_to_expenses db tid uid = (some e, db1) ∧
      add_transaction_to_expenses db1 tid uid = (none, db1) ∧
      db1.expenses = db.expenses ++ [e] ∧
      e ∈ db1.expenses ∧
      (∀ t ∈ db1.transactions, t.id = tid →
        t.added_to_expenses = true ∧ t.expense_id = some e.id) := by
  refine ⟨{ id := db.nextExpenseId, amount := tx.amount, description := tx.description,
            date := tx.date, category := tx.category,
            attachment_filename := some rcpt.filename,
            attachment_path := some rcpt.file_path, user_id := uid },
          { db with
              expenses := db.expenses ++
                [{ id := db.nextExpenseId, amount := tx.amount,
                   description := tx.description, date := tx.date,
                   category := tx.category, attachment_filename := some rcpt.filename,
                   attachment_path := some rcpt.file_path, user_id := uid }]
              nextExpenseId := db.nextExpenseId + 1
              transactions := db.transactions.map (fun t =>
                if t.id == tid then
                  { t with added_to_expenses := true,
                           expense_id := some db.nextExpenseId }
                else t) }, ?_, ?_, rfl, by simp, ?_⟩
  · simp [add_transaction_to_expenses, hf, ha, hr]
  · simp only [add_transaction_to_expenses]
    rw [find?_marked tid (some db.nextExpenseId) db.transactions tx hf]
    simp
  · intro t ht htid
    simp only [List.mem_map] at ht
    obtain ⟨t0, ht0, rfl⟩ := ht
    by_cases h0 : t0.id == tid
    · rw [if_pos h0]
      exact ⟨rfl, rfl⟩
    · rw [if_neg h0] at htid ⊢
      exact absurd (by simp [htid]) h0

/-- Witness for C9: on the concrete store, the first add yields the expected
expense and post-state, the second add is refused, and the ledger holds
exactly the one created expense. -/
theorem add_to_expenses_once_witness :
    add_transaction_to_expenses dbExp1 3 1 = (none, dbExp1) ∧
    dbExp1.expenses = dbExp.expenses ++ [expExp] := by
  obtain ⟨e, db1, h1, h2, h3, _, _⟩ :=
    add_to_expenses_once dbExp 3 1 txExp rcptExp rfl rfl rfl
  have hpair : (some e, db1) = (some expExp, dbExp1) := by
    rw [← h1]; rfl
  simp only [Prod.mk.injEq, Option.some.injEq] at hpair
  obtain ⟨he, hdb⟩ := hpair
  subst he
  subst hdb
  exact ⟨h2, h3⟩

/-- Claim C10: `delete_receipt` returns True and removes the receipt together
with every ExtractedTransaction referencing it when a receipt with that id is
owned by that user; otherwise (no such receipt, or owned by another user) it
returns False and the database is unchanged. Expenses are never touched. -/
theorem delete_receipt_spec (db : DB) (rid uid : Nat) :
    (db.receipts.find? (fun r => r.id == rid && r.user_id == uid) = none →
      delete_receipt_fn db rid uid = (false, db)) ∧
    (∀ rcpt, db.receipts.find? (fun r => r.id == rid && r.user_id == uid) = some rcpt →
      (delete_receipt_fn db rid uid).1 = true ∧
      (delete_receipt_fn db rid uid).2.transactions =
        db.transactions.filter (fun t => !(t.receipt_id == rid)) ∧
      (∀ t ∈ (delete_receipt_fn db rid uid).2.transactions, ¬ t.receipt_id = rid) ∧
      (delete_receipt_fn db rid uid).2.receipts =
        db.receipts.eraseP (fun r => r.id == rid && r.user_id == uid) ∧
      (delete_receipt_fn db rid uid).2.expenses = db.expenses) := by
  constructor
  · intro h
    unfold delete_receipt_fn
    rw [h]
  · intro rcpt h
    unfold delete_receipt_fn
    rw [h]
    refine ⟨rfl, rfl, ?_, rfl, rfl⟩
    intro t ht
    have hmem := List.mem_filter.mp ht
    simpa using hmem.2

/-- Witness for C10: deleting receipt 7 as user 1 removes it and its two
transactions rows referencing it, keeps the unrelated transaction, and a
lookup by the wrong user leaves the database unchanged. -/
theorem delete_receipt_spec_witness :
    (delete_receipt_fn dbDel 7 1).1 = true ∧
    (delete_receipt_fn dbDel 7 1).2.transactions =
      dbDel.transactions.filter (fun t => !(t.receipt_id == 7)) ∧
    (delete_receipt_fn dbDel 7 1).2.expenses = dbDel.expenses ∧
    delete_receipt_fn dbDel 7 2 = (false, dbDel) := by
  have h := delete_receipt_spec dbDel 7 1
  have h2 := (delete_receipt_spec dbDel 7 2).1 rfl
  obtain ⟨h1a, h1b, _, _, h1e⟩ := h.2 _ rfl
  exact ⟨h1a, h1b, h1e, h2⟩

lemma backfillDates_length (rd : ReceiptData) :
    (backfillDates rd).length = rd.transactions.length := by
  unfold backfillDates
  split
  · exact List.length_map _ _
  · rfl

lemma backfillDates_getElem? (rd : ReceiptData) (i : Nat) :
    (backfillDates rd)[i]?.map (fun t => (t.description, t.category)) =
      rd.transactions[i]?.map (fun t => (t.description, t.category)) := by
  unfold backfillDates
  split
  · rw [List.getElem?_map]
    cases rd.transactions[i]? with
    | none => rfl
    | some t =>
      simp only [Option.map_some']
      split <;> rfl
  · rfl

lemma enhance_results_transactions (patterns : List (String × List String))
    (rd : ReceiptData) :
    (enhance_results patterns rd).1.transactions =
      (backfillDates rd).map (categorizeTx patterns rd.merchant_name) := by
  unfold enhance_results
  exact validate_receipt_total_transactions _

lemma categorizeTx_category (patterns : List (String × List String))
    (merch : Option String) (t : Transaction) :
    (categorizeTx patterns merch t).category =
      if (!(pyStrTruthy t.category) || t.category == some "Miscellaneous") = true then
        (if pyStrTruthy (suggest_category patterns t.description merch) = true then
          suggest_category patterns t.description merch
         else t.category)
      else t.category := by
  by_cases hc : (!(pyStrTruthy t.category) || t.category == some "Miscellaneous") = true
  · by_cases hs : pyStrTruthy (suggest_category patterns t.description merch) = true
    · simp [categorizeTx, hc, hs]
    · simp [categorizeTx, hc, hs]
  · simp [categorizeTx, hc]

/-- Claim C7, counterexample: for a hint table whose first entry has the empty
string as category name — loadable from category_patterns.json, whose contents
`_load_category_patterns` returns verbatim — the keyword "x" matches the
description, so the first category with a matching keyword is "", yet the
`if suggested_category:` truthiness guard at receipt_processor.py line 276 is
falsy for "" and the transaction keeps its unset category instead of being
assigned that first matching category as the claim states. -/
theorem empty_category_name_not_assigned_counterexample :
    suggest_category [("", ["x"])] "x marks" none = some "" ∧
    ((enhance_results [("", ["x"])]
        { merchant_name := none, receipt_date := none, receipt_total := some 5,
          transactions := [{ description := "x marks", amount := 5,
                             date := some "2024-05-01",
                             category := none }] }).1.transactions.getD 0
        dummyTx).category = none := by
  exact ⟨rfl, rfl⟩

/-- Claim C7 (amended): in the Enhancement Stage, a transaction whose category
is unset (Python-falsy: absent or empty) or "Miscellaneous" is recategorized
to `suggest_category` of its description and the merchant name provided that
suggestion is truthy (a non-empty category name — `if suggested_category:`),
and left unchanged when no keyword matches or the matching category name is
the empty string; any other category is never touched. `suggest_category`
returns the first category, in hint-table insertion order, one of whose
keywords occurs (lowercased) as a substring of the description concatenated
with the merchant name, and `None` exactly when no keyword of any category
matches. -/
theorem enhance_categorization (patterns : List (String × List String)) (rd : ReceiptData) :
    (enhance_results patterns rd).1.transactions.length = rd.transactions.length ∧
    (∀ i, i < rd.transactions.length →
      (((!(pyStrTruthy (rd.transactions.getD i dummyTx).category) ||
          (rd.transactions.getD i dummyTx).category == some "Miscellaneous") = true →
        ((enhance_results patterns rd).1.transactions.getD i dummyTx).category =
          (if pyStrTruthy (suggest_category patterns
                (rd.transactions.getD i dummyTx).description rd.merchant_name) = true then
            suggest_category patterns (rd.transactions.getD i dummyTx).description
              rd.merchant_name
           else (rd.transactions.getD i dummyTx).category)) ∧
       ((!(pyStrTruthy (rd.transactions.getD i dummyTx).category) ||
          (rd.transactions.getD i dummyTx).category == some "Miscellaneous") = false →
        ((enhance_results patterns rd).1.transactions.getD i dummyTx).category =
          (rd.transactions.getD i dummyTx).category))) ∧
    (∀ desc merch c, suggest_category patterns desc merch = some c ↔
      ∃ kws pre post, patterns = pre ++ (c, kws) :: post ∧
        categoryMatches (textToCheck desc merch) (c, kws) = true ∧
        ∀ entry ∈ pre, categoryMatches (textToCheck desc merch) entry = false) ∧
    (∀ desc merch, suggest_category patterns desc merch = none ↔
      ∀ entry ∈ patterns, categoryMatches (textToCheck desc merch) entry = false) := by
  refine ⟨?_, ?_, ?_, ?_⟩
  · rw [enhance_results_transactions, List.length_map, backfillDates_length]
  · intro i hi
    have ht : rd.transactions[i]? = some (rd.transactions.getD i dummyTx) := by
      rw [List.getD_eq_getElem?_getD, List.getElem?_eq_getElem hi]
      rfl
    have hb := backfillDates_getElem? rd i
    rw [ht] at hb
    cases hbe : (backfillDates rd)[i]? with
    | none => rw [hbe] at hb; simp at hb
    | some b =>
      rw [hbe] at hb
      simp only [Option.map_some', Option.some.injEq, Prod.mk.injEq] at hb
      obtain ⟨hdesc, hcat⟩ := hb
      have hout : ((enhance_results patterns rd).1.transactions.getD i dummyTx) =
          categorizeTx patterns rd.merchant_name b := by
        rw [List.getD_eq_getElem?_getD, enhance_results_transactions,
            List.getElem?_map, hbe]
        rfl
      constructor
      · intro hcond
        rw [hout, categorizeTx_category, hdesc, hcat, if_pos hcond]
      · intro hcond
        rw [hout, categorizeTx_category, hdesc, hcat,
            if_neg (by rw [hcond]; exact Bool.false_ne_true)]
  · intro desc merch c
    constructor
    · intro h
      unfold suggest_category at h
      cases hq : patterns.find? (categoryMatches (textToCheck desc merch)) with
      | none => rw [hq] at h; simp at h
      | some entry =>
        rw [hq] at h
        simp only [Option.map_some', Option.some.injEq] at h
        obtain ⟨hpe, pre, post, heq, hall⟩ := List.find?_eq_some.mp hq
        refine ⟨entry.2, pre, post, ?_, ?_, ?_⟩
        · rw [heq, ← h]
        · rw [← h]
          exact hpe
        · intro x hx
          have := hall x hx
          simpa using this
    · rintro ⟨kws, pre, post, heq, hm, hall⟩
      have hq : patterns.find? (categoryMatches (textToCheck desc merch)) = some (c, kws) :=
        List.find?_eq_some.mpr ⟨hm, pre, post, heq, fun a ha => by simp [hall a ha]⟩
      unfold suggest_category
      rw [hq]
      rfl
  · intro desc merch
    unfold suggest_category
    constructor
    · intro h
      have hq : patterns.find? (categoryMatches (textToCheck desc merch)) = none := by
        cases hq : patterns.find? (categoryMatches (textToCheck desc merch)) with
        | none => rfl
        | some entry => rw [hq] at h; simp at h
      intro entry he
      have := List.find?_eq_none.mp hq entry he
      simpa using this
    · intro h
      rw [List.find?_eq_none.mpr (fun x hx => by simp [h x hx])]
      rfl

/-- Witness for C7: with the default hint table, the uncategorized transaction
"Dinner at a restaurant" receives category "Food" (keyword "restaurant" of the
first hint-table entry). -/
theorem enhance_categorization_witness :
    ((enhance_results default_category_patterns rdCat).1.transactions.getD 0
        dummyTx).category = some "Food" := by
  have h := ((enhance_categorization default_category_patterns rdCat).2.1 0
    (by decide)).1 (by rfl)
  rw [h]
  rfl
